import Mathlib

/-!
Verification of the helix-db gateway core against its specification.

The gateway's implementation modules (`thread_pool`, `router`, `protocol`,
`connection`) are declared in `src/helix-gateway/src/lib.rs` but their code
is not present under `src/`; only their tests and callers are. Following the
spec (sections 3, 4.1-4.4, 7), those components are modelled here; each such
definition carries a doc comment starting `Modelled from the spec:`. The
redeploy helper (`src/hbuild_redeploy/src/main.rs`) and the top-level
`HelixGateway::new` (`src/helix-gateway/src/lib.rs`) are present in source
and are embedded directly.
-/

/-! ### Worker pool (spec section 4.1) -/

/-- Modelled from the spec: the worker-pool counter state of the missing
`thread_pool` module. `total` is the fixed worker count, `num_used_workers`
the busy counter and `num_unused_workers` the idle counter, named after the
fields the tests in `src/helix-gateway/src/lib.rs` read
(`pool.num_used_workers`, `pool.num_unused_workers`). -/
structure PoolState where
  total : Nat
  num_used_workers : Nat
  num_unused_workers : Nat
deriving DecidableEq, Repr

/-- Modelled from the spec: `ThreadPool::new(size, engine, router)` of the
missing `thread_pool` module. `size == 0` is a fatal construction-time
failure with the message observed by `test_thread_pool_zero_size`; on
success the pool starts with `idle == size`, `busy == 0`. -/
def ThreadPool.new (size : Nat) : Except String PoolState :=
  if size = 0 then
    Except.error "Expected number of threads in thread pool to be more than 0"
  else
    Except.ok { total := size, num_used_workers := 0, num_unused_workers := size }

/-- Modelled from the spec: a worker picking up a job atomically increments
busy and decrements idle. -/
def startJob (s : PoolState) : PoolState :=
  { s with num_used_workers := s.num_used_workers + 1,
           num_unused_workers := s.num_unused_workers - 1 }

/-- Modelled from the spec: a worker finishing a job - by normal completion,
by an internal job failure, or by catching an abnormal termination of the
job body - atomically decrements busy and increments idle, so that pool
capacity never leaks. -/
def finishJob (s : PoolState) : PoolState :=
  { s with num_used_workers := s.num_used_workers - 1,
           num_unused_workers := s.num_unused_workers + 1 }

/-- Modelled from the spec: the observable worker state transitions of the
missing `thread_pool` module. A worker starts a job only when some worker is
idle, and finishes a job (normally or after catching a panic) only when some
worker is busy. -/
inductive PoolStep : PoolState → PoolState → Prop
  | start (s : PoolState) (h : 0 < s.num_unused_workers) : PoolStep s (startJob s)
  | finish (s : PoolState) (h : 0 < s.num_used_workers) : PoolStep s (finishJob s)
/-! ### Data model (spec section 3) -/

/-- Modelled from the spec: a decoded request of the missing `protocol`
crate - method, path, insertion-ordered header mapping, body bytes
(modelled as characters). -/
structure Request where
  method : String
  path : String
  headers : List (String × String)
  body : String
deriving DecidableEq, Repr

/-- Modelled from the spec: a response of the missing `protocol` crate -
status code, insertion-ordered headers, body bytes (modelled as
characters). -/
structure Response where
  status : Nat
  headers : List (String × String)
  body : String
deriving DecidableEq, Repr

/-- Modelled from the spec: `Response::new`, an empty response for a handler
to populate (default status chosen as 200; the tests always set the status
explicitly before sending). -/
def Response.new : Response :=
  { status := 200, headers := [], body := "" }

/-- Modelled from the spec: the opaque, thread-safe engine handle; the core
never inspects it, only passes it through. -/
structure HelixGraphEngine where
  mk ::

/-- Modelled from the spec: a handler failure value. -/
structure HandlerError where
  message : String
deriving DecidableEq, Repr

/-- Modelled from the spec: the handler capability contract of the missing
`router` module - given the shared engine handle, the request and the
mutable response, produce the updated response together with
`Result<(), HandlerError>`. -/
def HandlerFn : Type :=
  HelixGraphEngine → Request → Response → Response × Except HandlerError Unit

/-! ### Router (spec section 4.3) -/

/-- Modelled from the spec: the route table of the missing `router` module,
a mapping from exact, case-sensitive `(method, path)` keys to handler
capabilities. -/
def RouteTable : Type :=
  String × String → Option HandlerFn

/-- Modelled from the spec: the empty route table. -/
def emptyRoutes : RouteTable := fun _ => none

/-- Modelled from the spec: `HelixRouter::add_route` registers a handler
under the exact `(method, path)` key, overwriting any prior handler at that
key; it is total and raises no duplicate-registration error. -/
def add_route (t : RouteTable) (method p : String) (hf : HandlerFn) : RouteTable :=
  fun k => if k = (method, p) then some hf else t k

/-- Modelled from the spec: `HelixRouter::new` builds a route table from an
optional initial list of routes (the caller passes `None` in every observed
test). -/
def HelixRouter.new (routes : Option (List ((String × String) × HandlerFn))) : RouteTable :=
  match routes with
  | none => emptyRoutes
  | some rs => rs.foldl (fun t kv => add_route t kv.1.1 kv.1.2 kv.2) emptyRoutes

/-- Modelled from the spec: the three dispatch outcomes a caller of
`HelixRouter::handle` can observe - the handler succeeded, no route was
registered, or the handler returned an error. -/
inductive RouteOutcome
  | success
  | notFound
  | failed (e : HandlerError)

/-- Modelled from the spec: `HelixRouter::handle(engine, request, response)`
looks up the exact `(request.method, request.path)` key; if a handler is
registered it is invoked with the engine handle, the request and the
response, and its result is passed through unchanged (`Ok` as `success`,
`Err e` as `failed e`); otherwise the outcome is `notFound`. -/
def HelixRouter.handle (t : RouteTable) (g : HelixGraphEngine) (req : Request)
    (resp : Response) : Response × RouteOutcome :=
  match t (req.method, req.path) with
  | some hf =>
      match hf g req resp with
      | (r, Except.ok _) => (r, RouteOutcome.success)
      | (r, Except.error e) => (r, RouteOutcome.failed e)
  | none => (resp, RouteOutcome.notFound)

/-! ### Wire protocol codec (spec section 4.4) -/

/-- Modelled from the spec: split the stream at the first CRLF, returning
the line content (CRLF excluded) and the remainder; `none` when no
CRLF-terminated line is present. -/
def takeLine : List Char → Option (List Char × List Char)
  | [] => none
  | ['\r'] => none
  | '\r' :: '\n' :: rest => some ([], rest)
  | c :: rest => (takeLine rest).map fun p => (c :: p.1, p.2)

/-- Modelled from the spec: split a header line at the first colon; `none`
when the line has no colon. -/
def splitColon : List Char → Option (List Char × List Char)
  | [] => none
  | ':' :: rest => some ([], rest)
  | c :: rest => (splitColon rest).map fun p => (c :: p.1, p.2)

/-- Modelled from the spec: the single space of the `NAME: VALUE` header
grammar is dropped from the front of the value. -/
def dropLeadingSpace : List Char → List Char
  | ' ' :: rest => rest
  | l => l

/-- Modelled from the spec: parse one `NAME: VALUE` header line. -/
def parseHeaderLine (line : List Char) : Option (String × String) :=
  match splitColon line with
  | none => none
  | some (name, rest) => some (String.mk name, String.mk (dropLeadingSpace rest))

/-- Modelled from the spec: insert a header into the insertion-ordered
mapping, a later duplicate name overwriting the earlier one in place. -/
def insertHeader : List (String × String) → String → String → List (String × String)
  | [], k, v => [(k, v)]
  | (k0, v0) :: rest, k, v =>
      if k0 = k then (k, v) :: rest else (k0, v0) :: insertHeader rest k v

/-- Modelled from the spec: look a header name up in the mapping. -/
def lookupHeader : List (String × String) → String → Option String
  | [], _ => none
  | (k0, v) :: rest, k => if k0 = k then some v else lookupHeader rest k

/-- Modelled from the spec: parse header lines until the blank CRLF line
that terminates the header block, accumulating the header mapping. The fuel
argument bounds the recursion; every header line consumes at least the two
CRLF characters, so a fuel of `input.length + 1` can never run out. -/
def parseHeadersAux : Nat → List (String × String) → List Char →
    Option (List (String × String) × List Char)
  | 0, _, _ => none
  | fuel + 1, acc, l =>
      match takeLine l with
      | none => none
      | some (line, rest) =>
          if line = [] then some (acc, rest)
          else
            match parseHeaderLine line with
            | none => none
            | some kv => parseHeadersAux fuel (insertHeader acc kv.1 kv.2) rest

/-- Modelled from the spec: split the request line on single spaces. -/
def splitSpaces : List Char → List (List Char)
  | [] => [[]]
  | ' ' :: rest => [] :: splitSpaces rest
  | c :: rest =>
      match splitSpaces rest with
      | [] => [[c]]
      | w :: ws => (c :: w) :: ws

/-- Modelled from the spec: parse the request line
`METHOD SP PATH SP VERSION`. -/
def parseRequestLine (line : List Char) : Option (String × String × String) :=
  match splitSpaces line with
  | [m, p, v] => some (String.mk m, String.mk p, String.mk v)
  | _ => none

/-- Modelled from the spec: parse a decimal natural from the digit
characters of a `Content-Length` value. -/
def parseNatAux : List Char → Nat → Option Nat
  | [], acc => some acc
  | c :: rest, acc =>
      if c.isDigit then parseNatAux rest (acc * 10 + (c.toNat - 48)) else none

/-- Modelled from the spec: a `Content-Length` value parses as a
non-negative integer exactly when it is a non-empty digit string. -/
def parseContentLength (s : String) : Option Nat :=
  match s.data with
  | [] => none
  | l => parseNatAux l 0

/-- Modelled from the spec: the decode failures of the missing `protocol`
crate - missing CRLF-terminated request line, malformed request line,
malformed or unterminated header block, non-numeric `Content-Length`, and
end of stream before the declared body length. -/
inductive DecodeError
  | malformedRequestLine
  | malformedHeader
  | badContentLength
  | prematureEnd
deriving DecidableEq, Repr

/-- Modelled from the spec: `Request::from_stream` of the missing `protocol`
crate. Reads a request line, then header lines until a blank CRLF; when a
`Content-Length` header is present its value must parse as a non-negative
integer and exactly that many body bytes must follow; in its absence the
body is empty. Malformed input is a decode failure, never a partial
success. -/
def Request.from_stream (input : List Char) : Except DecodeError Request :=
  match takeLine input with
  | none => Except.error DecodeError.malformedRequestLine
  | some (line, rest) =>
      match parseRequestLine line with
      | none => Except.error DecodeError.malformedRequestLine
      | some (m, p, _v) =>
          match parseHeadersAux (rest.length + 1) [] rest with
          | none => Except.error DecodeError.malformedHeader
          | some (hs, remaining) =>
              match lookupHeader hs "Content-Length" with
              | none => Except.ok { method := m, path := p, headers := hs, body := "" }
              | some clv =>
                  match parseContentLength clv with
                  | none => Except.error DecodeError.badContentLength
                  | some n =>
                      if n ≤ remaining.length then
                        Except.ok { method := m, path := p, headers := hs,
                                    body := String.mk (remaining.take n) }
                      else Except.error DecodeError.prematureEnd

/-- Modelled from the spec: the reason phrase of the status line (the spec
names `HTTP/1.1 200 OK`; the other phrases are the standard ones for the
spec's 400/404/500 defaults). -/
def reasonPhrase : Nat → String
  | 200 => "OK"
  | 400 => "Bad Request"
  | 404 => "Not Found"
  | 500 => "Internal Server Error"
  | _ => "Unknown"

/-- Modelled from the spec: each caller-set header emitted as
`Name: Value\r\n` in insertion order. -/
def headerLines : List (String × String) → String
  | [] => ""
  | (k, v) :: rest => k ++ ": " ++ v ++ "\r\n" ++ headerLines rest

/-- Modelled from the spec: `Response::send` of the missing `protocol`
crate writes the status line, every caller-set header in insertion order, a
`Content-Length` header recomputed from the exact byte length of the body,
a blank CRLF, then the raw body bytes. -/
def Response.send (r : Response) : String :=
  ("HTTP/1.1 " ++ toString r.status ++ " " ++ reasonPhrase r.status ++ "\r\n"
    ++ headerLines r.headers)
  ++ ("Content-Length: " ++ toString r.body.length ++ "\r\n")
  ++ ("\r\n" ++ r.body)

/-! ### Connection handler job execution (spec sections 4.2 and 7) -/

/-- Modelled from the spec: the default decode-failure response, status 400,
minimal body. -/
def response400 : Response := { status := 400, headers := [], body := "" }

/-- Modelled from the spec: the default route-not-found response, status
404, minimal body. -/
def response404 : Response := { status := 404, headers := [], body := "" }

/-- Modelled from the spec: the default handler-error response, status 500,
minimal body; it is built fresh, so nothing a handler set before failing
survives into it. -/
def response500 : Response := { status := 500, headers := [], body := "" }

/-- Modelled from the spec: job execution inside a pool worker for one
accepted connection of the missing `connection` module - decode one request;
on decode failure send a 400-class response; on success dispatch through the
router, sending the handler-populated response on success, a fresh 500-class
response when the handler failed (discarding the half-built response), and a
404-class response when no route matched. The function is total: every
outcome is a response to send, so a failing connection never terminates the
worker. -/
def handle_connection (t : RouteTable) (g : HelixGraphEngine) (input : List Char) :
    Response :=
  match Request.from_stream input with
  | Except.error _ => response400
  | Except.ok req =>
      match HelixRouter.handle t g req Response.new with
      | (resp, RouteOutcome.success) => resp
      | (_, RouteOutcome.failed _) => response500
      | (_, RouteOutcome.notFound) => response404

/-! ### Gateway constructor and redeploy helper (embedded from src/) -/

/-- Modelled from the spec: a listener bind failure carrying the OS-level
cause (the `ConnectionHandler::new` error type is not under `src/`). -/
structure BindError where
  message : String

/-- Modelled from the spec: the connection handler of the missing
`connection` module, abstracted to the router it serves. -/
structure ConnectionHandler where
  router : RouteTable

/-- Embedded from `src/helix-gateway/src/lib.rs`: the gateway owns its
connection handler. -/
structure HelixGateway where
  connection_handler : ConnectionHandler

/-- Embedded from `src/helix-gateway/src/lib.rs` lines 22-28:
`HelixGateway::new` builds the router from the optional route map, then
calls `ConnectionHandler::new(address, graph, size, router)` and `.unwrap()`s
its result. `ConnectionHandler::new` itself is not under `src/`, so its
outcome is abstracted as the argument `connNew`; `.unwrap()` on an `Err` is
a panic, modelled as `none`. -/
def HelixGateway.new (connNew : RouteTable → Except BindError ConnectionHandler)
    (routes : Option (List ((String × String) × HandlerFn))) : Option HelixGateway :=
  match connNew (HelixRouter.new routes) with
  | Except.ok ch => some { connection_handler := ch }
  | Except.error _ => none

/-- Embedded from `src/hbuild_redeploy/src/main.rs` lines 16-21: the deploy
request shape the helper declares. -/
structure HBuildDeployRequest where
  user_id : String
  instance_id : String
  version : String
deriving DecidableEq, Repr

/-- Embedded from `src/hbuild_redeploy/src/main.rs` lines 23-47: the deploy
acknowledgment shape the helper declares (its `success`/`error` constructors
are never called anywhere in the source). -/
structure DeployResponse where
  success : Bool
  message : String
  error : Option String
deriving DecidableEq, Repr

/-- Embedded from `src/hbuild_redeploy/src/main.rs`: the external actions
the per-connection task performs, in order. -/
inductive SysCommand
  | mv (src dst : String)
  | s3Get (bucket key : String)
  | fileCreateWrite (p : String)
  | chmod (p : String)
  | systemctlRestart (service : String)
  | systemctlStatus (service : String)
  | rm (p : String)
deriving DecidableEq, Repr

/-- Embedded from `src/hbuild_redeploy/src/main.rs`: the observable effects
of one accepted connection - the data written back on that connection, and
the commands run. -/
structure ConnEffects where
  conn_writes : List String
  commands : List SysCommand
deriving DecidableEq, Repr

/-- Embedded from `src/hbuild_redeploy/src/main.rs` lines 79-159: the task
spawned for one accepted connection. It renames the old binary, fetches the
new one from S3, writes and chmods it, restarts the service, checks its
status, and either deletes the old binary or rolls back. The accepted
connection itself is never read from and never written to in any path, so
`conn_writes` is empty in both branches. -/
def handleDeployConn (user_id cluster_id : String) (service_ok : Bool) : ConnEffects :=
  { conn_writes := [],
    commands :=
      [ SysCommand.mv "helix" "helix_old",
        SysCommand.s3Get "helix-build" (user_id ++ "/" ++ cluster_id ++ "/helix/latest"),
        SysCommand.fileCreateWrite "helix",
        SysCommand.chmod "helix",
        SysCommand.systemctlRestart "helix",
        SysCommand.systemctlStatus "helix" ] ++
      (if service_ok then [SysCommand.rm "helix_old"]
       else [SysCommand.mv "helix_old" "helix", SysCommand.systemctlRestart "helix"]) }

/-! ### Concrete fixtures used by the witnesses -/

/-- The handler of `test_router_integration`: it sets status 200, body
`"Success"` and a `Content-Type: text/plain` header, then returns `Ok`. -/
def successHandler : HandlerFn := fun _ _ resp =>
  ({ resp with status := 200,
               headers := [("Content-Type", "text/plain")],
               body := "Success" },
   Except.ok ())

/-- A handler that sets a header and a body and then fails, exercising the
discard-on-handler-error path. -/
def failingHandler : HandlerFn := fun _ _ resp =>
  ({ resp with headers := [("X-Leak", "yes")], body := "SECRET" },
   Except.error (HandlerError.mk "boom"))

/-- The response of `test_response_creation_and_sending`: status 200, header
`Content-Type: text/plain`, body `"Hello World"`. -/
def exampleResponse : Response :=
  { status := 200, headers := [("Content-Type", "text/plain")], body := "Hello World" }

/-! ### Theorems settling the claims -/


/-- A single worker transition preserves the counter sum and the total. -/
theorem poolStep_counts {s t : PoolState} (h : PoolStep s t) :
    t.num_used_workers + t.num_unused_workers
      = s.num_used_workers + s.num_unused_workers ∧ t.total = s.total := by
  cases h with
  | start h => constructor <;> simp [startJob] <;> omega
  | finish h => constructor <;> simp [finishJob] <;> omega

/-- The counter sum and total are invariant along any sequence of worker
transitions. -/
theorem poolReach_counts {s t : PoolState} (h : Relation.ReflTransGen PoolStep s t) :
    t.num_used_workers + t.num_unused_workers
      = s.num_used_workers + s.num_unused_workers ∧ t.total = s.total := by
  induction h with
  | refl => exact ⟨rfl, rfl⟩
  | tail _ hstep ih =>
      have h2 := poolStep_counts hstep
      exact ⟨h2.1.trans ih.1, h2.2.trans ih.2⟩

/-- C1: a pool built with `ThreadPool.new N` for `N ≥ 1` starts with
`idle == N` and `busy == 0`, and in every state reachable through worker
transitions (including those that caught an abnormal job termination)
`busy + idle == N`, hence `busy ≤ N` even when more than `N` jobs are
queued. -/
theorem C1_pool_counters (n : Nat) (hn : 1 ≤ n) (p0 : PoolState)
    (hp : ThreadPool.new n = Except.ok p0) :
    p0.num_unused_workers = n ∧ p0.num_used_workers = 0 ∧
    ∀ s, Relation.ReflTransGen PoolStep p0 s →
      s.num_used_workers + s.num_unused_workers = n ∧ s.num_used_workers ≤ n := by
  have hn0 : n ≠ 0 := by omega
  unfold ThreadPool.new at hp
  rw [if_neg hn0] at hp
  cases hp
  refine ⟨rfl, rfl, ?_⟩
  intro s hs
  have h := (poolReach_counts hs).1
  simp at h
  omega

/-- Witness for C1, at the pool size 4 used by `test_thread_pool_creation`. -/
theorem C1_pool_counters_witness :
    (PoolState.mk 4 0 4).num_unused_workers = 4 ∧
    (PoolState.mk 4 0 4).num_used_workers = 0 ∧
    ∀ s, Relation.ReflTransGen PoolStep (PoolState.mk 4 0 4) s →
      s.num_used_workers + s.num_unused_workers = 4 ∧ s.num_used_workers ≤ 4 :=
  C1_pool_counters 4 (by decide) (PoolState.mk 4 0 4) (by rfl)

/-- C5: construction with size 0 is a fatal failure carrying exactly the
message observed by `test_thread_pool_zero_size`, not a recoverable pool
value; for every `size ≥ 1` construction succeeds with `total = size`
workers, all idle. -/
theorem C5_zero_size_fatal :
    ThreadPool.new 0
      = Except.error "Expected number of threads in thread pool to be more than 0" ∧
    ∀ n, 1 ≤ n → ThreadPool.new n = Except.ok (PoolState.mk n 0 n) := by
  constructor
  · rfl
  · intro n hn
    unfold ThreadPool.new
    rw [if_neg (by omega)]

/-- Witness for C5 at size 3. -/
theorem C5_zero_size_fatal_witness :
    ThreadPool.new 3 = Except.ok (PoolState.mk 3 0 3) :=
  C5_zero_size_fatal.2 3 (by decide)


/-- C8: registering twice at the same key leaves the route table exactly as
registering the later handler alone; `add_route` is total, so no
duplicate-registration error can be raised. -/
theorem C8_last_registration_wins (t : RouteTable) (method p : String)
    (h1 h2 : HandlerFn) :
    add_route (add_route t method p h1) method p h2 = add_route t method p h2 := by
  funext k
  by_cases hk : k = (method, p) <;> simp [add_route, hk]

/-- C2: `HelixRouter.handle` looks up the exact, case-sensitive
`(method, path)` key; a registered handler is invoked with the engine
handle, the request and the response, and its result is returned unchanged;
when no handler is registered the connection observes the 404-class
response, not an unhandled failure; and a route registered for
`(GET, /test)` is found exactly for a request with that exact method and
path. -/
theorem C2_router_dispatch :
    (∀ (t : RouteTable) (g : HelixGraphEngine) (req : Request) (resp : Response)
       (hf : HandlerFn),
       t (req.method, req.path) = some hf →
       HelixRouter.handle t g req resp
         = ((hf g req resp).1,
            match (hf g req resp).2 with
            | Except.ok _ => RouteOutcome.success
            | Except.error e => RouteOutcome.failed e)) ∧
    (∀ (t : RouteTable) (g : HelixGraphEngine) (input : List Char) (req : Request),
       Request.from_stream input = Except.ok req →
       t (req.method, req.path) = none →
       handle_connection t g input = response404 ∧
       (handle_connection t g input).status = 404) ∧
    (∀ (hf : HandlerFn) (req : Request),
       add_route emptyRoutes "GET" "/test" hf (req.method, req.path) = some hf ↔
         req.method = "GET" ∧ req.path = "/test") := by
  refine ⟨?_, ?_, ?_⟩
  · intro t g req resp hf hlook
    rcases hr : hf g req resp with ⟨r, res⟩
    simp only [HelixRouter.handle, hlook]
    rw [hr]
    cases res <;> rfl
  · intro t g input req hdec hlook
    have hmain : handle_connection t g input = response404 := by
      simp only [handle_connection, hdec, HelixRouter.handle, hlook]
    exact ⟨hmain, by rw [hmain]; rfl⟩
  · intro hf req
    constructor
    · intro hl
      by_cases hm : (req.method, req.path) = ("GET", "/test")
      · rw [Prod.mk.injEq] at hm
        exact hm
      · simp only [add_route, emptyRoutes, if_neg hm] at hl
        cases hl
    · rintro ⟨h1, h2⟩
      simp [add_route, h1, h2]

set_option maxRecDepth 4000 in
/-- Witness for C2: the route and request of `test_router_integration`. -/
theorem C2_router_dispatch_witness :
    HelixRouter.handle (add_route emptyRoutes "GET" "/test" successHandler)
        HelixGraphEngine.mk
        (Request.mk "GET" "/test" [("Host", "localhost")] "") Response.new
      = (Response.mk 200 [("Content-Type", "text/plain")] "Success",
         RouteOutcome.success) :=
  (C2_router_dispatch.1 (add_route emptyRoutes "GET" "/test" successHandler)
    HelixGraphEngine.mk (Request.mk "GET" "/test" [("Host", "localhost")] "")
    Response.new successHandler rfl).trans rfl

set_option maxRecDepth 100000 in
/-- C3: `Response.send` writes the status line, the caller-set headers in
insertion order, a `Content-Length` header recomputed from the exact byte
length of the body - also when the caller set a `Content-Length` header of
their own - a blank CRLF and the raw body; sending the test response with
status 200, `Content-Type: text/plain` and body `"Hello World"` produces
bytes containing `HTTP/1.1 200 OK`, `Content-Type: text/plain`,
`Content-Length: 11` and `Hello World`. -/
theorem C3_response_send_format :
    (∀ r : Response, ∃ pre post : String,
       Response.send r
           = pre ++ ("Content-Length: " ++ toString r.body.length ++ "\r\n") ++ post ∧
       pre = "HTTP/1.1 " ++ toString r.status ++ " " ++ reasonPhrase r.status
               ++ "\r\n" ++ headerLines r.headers ∧
       post = "\r\n" ++ r.body) ∧
    (∀ (r : Response) (v : String), ∃ pre post : String,
       Response.send { r with headers := r.headers ++ [("Content-Length", v)] }
         = pre ++ ("Content-Length: " ++ toString r.body.length ++ "\r\n") ++ post) ∧
    ("HTTP/1.1 200 OK".data <:+: (Response.send exampleResponse).data ∧
     "Content-Type: text/plain".data <:+: (Response.send exampleResponse).data ∧
     "Content-Length: 11".data <:+: (Response.send exampleResponse).data ∧
     "Hello World".data <:+: (Response.send exampleResponse).data) := by
  refine ⟨?_, ?_, by decide, by decide, by decide, by decide⟩
  · intro r
    exact ⟨"HTTP/1.1 " ++ toString r.status ++ " " ++ reasonPhrase r.status
             ++ "\r\n" ++ headerLines r.headers,
           "\r\n" ++ r.body, rfl, rfl, rfl⟩
  · intro r v
    exact ⟨"HTTP/1.1 " ++ toString r.status ++ " " ++ reasonPhrase r.status
             ++ "\r\n" ++ headerLines (r.headers ++ [("Content-Length", v)]),
           "\r\n" ++ r.body, rfl⟩

/-- C4: decoding `"GET /test HTTP/1.1\r\nHost: localhost\r\n\r\n"` succeeds
with method `GET`, path `/test`, the single header `Host -> localhost` and
an empty body; and whenever a request decodes successfully without a
`Content-Length` header, its body is empty. -/
theorem C4_decode_request :
    Request.from_stream "GET /test HTTP/1.1\r\nHost: localhost\r\n\r\n".data
      = Except.ok (Request.mk "GET" "/test" [("Host", "localhost")] "") ∧
    ∀ (input : List Char) (req : Request),
      Request.from_stream input = Except.ok req →
      lookupHeader req.headers "Content-Length" = none →
      req.body = "" := by
  refine ⟨rfl, ?_⟩
  intro input req hok hcl
  unfold Request.from_stream at hok
  split at hok
  · cases hok
  · split at hok
    · cases hok
    · split at hok
      · cases hok
      · split at hok
        · cases hok
          exact rfl
        next hs remaining clv hfound =>
          split at hok
          · cases hok
          · split at hok
            · cases hok
              simp only at hcl
              rw [hfound] at hcl
              cases hcl
            · cases hok

/-- Witness for C4: the concrete request of the test has no
`Content-Length` header, and its decoded body is indeed empty. -/
theorem C4_decode_request_witness :
    (Request.mk "GET" "/test" [("Host", "localhost")] "").body = "" :=
  C4_decode_request.2 "GET /test HTTP/1.1\r\nHost: localhost\r\n\r\n".data
    (Request.mk "GET" "/test" [("Host", "localhost")] "") rfl rfl

/-- C6: when the decoded request matches a registered route and the handler
fails, the connection is answered with the 500-class response, which is
built fresh: its header list is empty and its body is empty, so every
header and body byte the handler set before failing is absent from what is
sent. -/
theorem C6_handler_error_500 (t : RouteTable) (g : HelixGraphEngine)
    (input : List Char) (req : Request) (hf : HandlerFn) (r : Response)
    (e : HandlerError)
    (hdec : Request.from_stream input = Except.ok req)
    (hlook : t (req.method, req.path) = some hf)
    (hrun : hf g req Response.new = (r, Except.error e)) :
    handle_connection t g input = response500 ∧
    response500.status = 500 ∧ response500.headers = [] ∧ response500.body = "" := by
  refine ⟨?_, rfl, rfl, rfl⟩
  simp only [handle_connection, hdec, HelixRouter.handle, hlook, hrun]

/-- Witness for C6: a handler that sets a header and the body `"SECRET"`
and then fails; the connection still receives the bare 500 response. -/
theorem C6_handler_error_500_witness :
    handle_connection (add_route emptyRoutes "GET" "/test" failingHandler)
        HelixGraphEngine.mk "GET /test HTTP/1.1\r\nHost: localhost\r\n\r\n".data
      = response500 ∧
    response500.status = 500 ∧ response500.headers = [] ∧ response500.body = "" :=
  C6_handler_error_500 (add_route emptyRoutes "GET" "/test" failingHandler)
    HelixGraphEngine.mk "GET /test HTTP/1.1\r\nHost: localhost\r\n\r\n".data
    (Request.mk "GET" "/test" [("Host", "localhost")] "") failingHandler
    (Response.mk 200 [("X-Leak", "yes")] "SECRET") (HandlerError.mk "boom")
    rfl rfl rfl

/-- C7: every decode failure is answered with the 400-class response for
that connection; a request line without CRLF, a non-numeric
`Content-Length` and a stream ending before the declared body length are
all decode failures; and since job execution is a total function, the
worker performs its finish transition afterward, returning the pool to the
exact state it had before the job - no capacity is lost. -/
theorem C7_decode_failure_400 :
    (∀ (t : RouteTable) (g : HelixGraphEngine) (input : List Char) (e : DecodeError),
       Request.from_stream input = Except.error e →
       handle_connection t g input = response400 ∧
       (handle_connection t g input).status = 400) ∧
    Request.from_stream "GET /test HTTP/1.1".data
      = Except.error DecodeError.malformedRequestLine ∧
    Request.from_stream "GET /test HTTP/1.1\r\nContent-Length: abc\r\n\r\n".data
      = Except.error DecodeError.badContentLength ∧
    Request.from_stream "GET /test HTTP/1.1\r\nContent-Length: 10\r\n\r\nab".data
      = Except.error DecodeError.prematureEnd ∧
    (∀ s : PoolState, 0 < s.num_unused_workers → finishJob (startJob s) = s) := by
  refine ⟨?_, rfl, rfl, rfl, ?_⟩
  · intro t g input e hdec
    have hmain : handle_connection t g input = response400 := by
      simp only [handle_connection, hdec]
    exact ⟨hmain, by rw [hmain]; rfl⟩
  · intro s hs
    cases s with
    | mk total busy idle =>
      have hi : 0 < idle := hs
      have h2 : idle - 1 + 1 = idle := by omega
      simp [startJob, finishJob, h2]

/-- Witness for C7: a concrete malformed connection receives the 400
response, and a 2-worker pool returns to its initial state after the
job. -/
theorem C7_decode_failure_400_witness :
    (handle_connection emptyRoutes HelixGraphEngine.mk "GET /test HTTP/1.1".data
       = response400 ∧
     (handle_connection emptyRoutes HelixGraphEngine.mk
        "GET /test HTTP/1.1".data).status = 400) ∧
    finishJob (startJob (PoolState.mk 2 0 2)) = PoolState.mk 2 0 2 :=
  ⟨C7_decode_failure_400.1 emptyRoutes HelixGraphEngine.mk
     "GET /test HTTP/1.1".data DecodeError.malformedRequestLine rfl,
   C7_decode_failure_400.2.2.2.2 (PoolState.mk 2 0 2) (by decide)⟩

/-- C9: the claim says the redeploy helper writes a serialized
`DeployResponse` acknowledgment back on every accepted connection; the
per-connection task in the source never writes anything back on the
connection, in the healthy path and in the rollback path alike. -/
theorem C9_no_deploy_ack (user_id cluster_id : String) (service_ok : Bool) :
    (handleDeployConn user_id cluster_id service_ok).conn_writes = [] := rfl

/-- C10: `HelixGateway::new` unwraps the result of
`ConnectionHandler::new`; when the underlying construction fails (for any
bind error) the constructor panics - modelled as `none` - instead of
returning the error, and when it succeeds the gateway simply wraps the
handler, so no `BindError` value is ever observable through the gateway
constructor. -/
theorem C10_gateway_new_unwraps
    (connNew : RouteTable → Except BindError ConnectionHandler)
    (routes : Option (List ((String × String) × HandlerFn))) :
    (∀ e : BindError, connNew (HelixRouter.new routes) = Except.error e →
       HelixGateway.new connNew routes = none) ∧
    (∀ ch : ConnectionHandler, connNew (HelixRouter.new routes) = Except.ok ch →
       HelixGateway.new connNew routes = some (HelixGateway.mk ch)) := by
  constructor
  · intro e he
    simp only [HelixGateway.new, he]
  · intro ch hc
    simp only [HelixGateway.new, hc]

/-- Witness for C10: a constructor whose bind always fails makes
`HelixGateway.new` panic (`none`). -/
theorem C10_gateway_new_unwraps_witness :
    HelixGateway.new (fun _ => Except.error (BindError.mk "address in use")) none
      = none :=
  (C10_gateway_new_unwraps (fun _ => Except.error (BindError.mk "address in use"))
    none).1 (BindError.mk "address in use") rfl
